import Mathlib

/-!
Shallow embedding of
`staging/src/k8s.io/component-base/metrics/prometheus/restclient/metrics.go`.

The five package-level metric instruments become the fields of a
`MetricsState` record, and each adapter method becomes a state-passing
function on it.  Go `time.Duration` is an `int64` count of nanoseconds and
is modelled as `Int`; the `float64` second values handed to the instruments
are modelled exactly as rationals.  The metric-instrument semantics
(`Observe`, `Inc`, `Set`, `MustRegister`) live in `k8s.io/component-base/metrics`
and `legacyregistry`, outside the file under study; they are modelled from
the specification's description of histograms, counters, gauges and the
registry contract.
-/

/-- Go `time.Duration`: a signed 64-bit count of nanoseconds. -/
abbrev Duration := Int

/-- `Duration.Seconds()`: the duration as a number of seconds
(`float64(d) / 1e9`), modelled exactly as a rational. -/
def Duration.seconds (d : Duration) : ℚ := (d : ℚ) / 1000000000

/-- `net/url.URL`, used by this module only through its `String()` method;
modelled by the string that method returns. -/
structure URL where
  str : String
deriving DecidableEq

/-- `u.String()`. -/
def URL.string (u : URL) : String := u.str

/-- Modelled from the spec: a gauge holds one scalar value; `+Inf`
(`math.Inf(1)`) is the sentinel for "no managed certificate". -/
inductive GaugeValue
  | val (q : ℚ)
  | posInf
deriving DecidableEq

/-- Modelled from the spec: a labelled histogram vector maps every label
tuple to the list of values observed for that series; unknown label tuples
are simply the empty series (auto-created, never an error). -/
abbrev HistogramVec (α : Type) := α → List ℚ

/-- Modelled from the spec: `WithLabelValues(...).Observe(v)` records `v`
into the series of the given label tuple and touches no other series. -/
def HistogramVec.observe {α : Type} [DecidableEq α]
    (h : HistogramVec α) (labels : α) (v : ℚ) : HistogramVec α :=
  fun l => if l = labels then v :: h l else h l

/-- Modelled from the spec: a labelled counter vector maps every label
tuple to a monotonically increasing count. -/
abbrev CounterVec (α : Type) := α → ℕ

/-- Modelled from the spec: `WithLabelValues(...).Inc()` adds one to the
series of the given label tuple and touches no other series. -/
def CounterVec.inc {α : Type} [DecidableEq α]
    (c : CounterVec α) (labels : α) : CounterVec α :=
  fun l => if l = labels then c l + 1 else c l

/-- Modelled from the spec: an unlabelled histogram is the list of values
observed so far. -/
abbrev Histogram := List ℚ

/-- Modelled from the spec: `Observe(v)` records `v` into the histogram. -/
def Histogram.observe (h : Histogram) (v : ℚ) : Histogram := v :: h

/-- A histogram's sample count. -/
def Histogram.count (h : Histogram) : ℕ := h.length

/-- A histogram's sample sum. -/
def Histogram.sampleSum (h : Histogram) : ℚ := List.sum h

/-- The mutable contents of the module's five package-level instruments:
`requestLatency`, `deprecatedRequestLatency`, `requestResult`,
`execPluginCertTTL` and `execPluginCertRotation`. -/
structure MetricsState where
  requestLatency : HistogramVec (String × String)
  deprecatedRequestLatency : HistogramVec (String × String)
  requestResult : CounterVec (String × String × String)
  execPluginCertTTL : GaugeValue
  execPluginCertRotation : Histogram

/-- `latencyAdapter.Observe(verb, u, latency)`:
`l.m.WithLabelValues(verb, u.String()).Observe(latency.Seconds())` followed by
`l.dm.WithLabelValues(verb, u.String()).Observe(latency.Seconds())`. -/
def latencyAdapter.Observe (verb : String) (u : URL) (latency : Duration)
    (s : MetricsState) : MetricsState :=
  { s with
    requestLatency :=
      HistogramVec.observe s.requestLatency (verb, URL.string u)
        (Duration.seconds latency),
    deprecatedRequestLatency :=
      HistogramVec.observe s.deprecatedRequestLatency (verb, URL.string u)
        (Duration.seconds latency) }

/-- `resultAdapter.Increment(code, method, host)`:
`r.m.WithLabelValues(code, method, host).Inc()`. -/
def resultAdapter.Increment (code method host : String)
    (s : MetricsState) : MetricsState :=
  { s with
    requestResult := CounterVec.inc s.requestResult (code, method, host) }

/-- `ttlAdapter.Set(ttl)`: `e.m.Set(math.Inf(1))` when the pointer is nil,
otherwise `e.m.Set(float64(ttl.Seconds()))`.  The Go nil pointer is `none`. -/
def ttlAdapter.Set (ttl : Option Duration) (s : MetricsState) : MetricsState :=
  match ttl with
  | none => { s with execPluginCertTTL := GaugeValue.posInf }
  | some d => { s with execPluginCertTTL := GaugeValue.val (Duration.seconds d) }

/-- `rotationAdapter.Observe(d)`: `r.m.Observe(d.Seconds())`. -/
def rotationAdapter.Observe (d : Duration) (s : MetricsState) : MetricsState :=
  { s with
    execPluginCertRotation :=
      Histogram.observe s.execPluginCertRotation (Duration.seconds d) }

/-- A freshly constructed module state: every series is empty and a newly
constructed gauge holds zero, before `init` runs. -/
def freshState : MetricsState :=
  { requestLatency := fun _ => []
    deprecatedRequestLatency := fun _ => []
    requestResult := fun _ => 0
    execPluginCertTTL := GaugeValue.val 0
    execPluginCertRotation := [] }

/-- The module state right after `init()` ran:
`execPluginCertTTL.Set(math.Inf(1))` executes before any adapter is handed
out, so the gauge already holds `+Inf`. -/
def initState : MetricsState :=
  { freshState with execPluginCertTTL := GaugeValue.posInf }

/-- The kind of a metric instrument. -/
inductive MetricType
  | histogram
  | counter
  | gauge
deriving DecidableEq

/-- The registry-visible description of one instrument: exported name,
label schema, kind, bucket boundaries (empty unless a histogram) and the
deprecation annotation. -/
structure InstrumentSpec where
  name : String
  labelNames : List String
  kind : MetricType
  buckets : List ℚ
  deprecatedVersion : Option String := none
deriving DecidableEq

/-- Modelled from the spec: `k8smetrics.ExponentialBuckets(start, factor, count)`
(defined in `k8s.io/component-base/metrics`, outside the file under study) is
the sequence `start * factor ^ i` for `i = 0 .. count - 1` — the spec's
"exponential: 0.001s × 2^0..9". -/
def ExponentialBuckets (start factor : ℚ) (count : ℕ) : List ℚ :=
  (List.range count).map (fun i => start * factor ^ i)

/-- The instrument built by `k8smetrics.NewHistogramVec` for
`rest_client_request_duration_seconds`. -/
def requestLatency : InstrumentSpec :=
  { name := "rest_client_request_duration_seconds",
    labelNames := ["verb", "url"],
    kind := MetricType.histogram,
    buckets := ExponentialBuckets 0.001 2 10 }

/-- The instrument built by `k8smetrics.NewHistogramVec` for the deprecated
`rest_client_request_latency_seconds`. -/
def deprecatedRequestLatency : InstrumentSpec :=
  { name := "rest_client_request_latency_seconds",
    labelNames := ["verb", "url"],
    kind := MetricType.histogram,
    buckets := ExponentialBuckets 0.001 2 10,
    deprecatedVersion := some "1.14.0" }

/-- The instrument built by `k8smetrics.NewCounterVec` for
`rest_client_requests_total`. -/
def requestResult : InstrumentSpec :=
  { name := "rest_client_requests_total",
    labelNames := ["code", "method", "host"],
    kind := MetricType.counter,
    buckets := [] }

/-- The instrument built by `k8smetrics.NewGauge` for
`rest_client_exec_plugin_ttl_seconds`. -/
def execPluginCertTTL : InstrumentSpec :=
  { name := "rest_client_exec_plugin_ttl_seconds",
    labelNames := [],
    kind := MetricType.gauge,
    buckets := [] }

/-- The instrument built by `k8smetrics.NewHistogram` for
`rest_client_exec_plugin_certificate_rotation_age`, with its explicit
bucket boundaries. -/
def execPluginCertRotation : InstrumentSpec :=
  { name := "rest_client_exec_plugin_certificate_rotation_age",
    labelNames := [],
    kind := MetricType.histogram,
    buckets := [600, 1800, 3600, 14400, 86400, 604800, 2592000, 7776000,
                15552000, 31104000, 124416000] }

/-- The process-wide legacy registry, as the list of instruments registered
so far, in registration order. -/
abbrev Registry := List InstrumentSpec

/-- Modelled from the spec: `legacyregistry.MustRegister` — registering an
instrument whose name is already registered is a fatal startup error
(`none`); otherwise the instrument is appended to the registry. -/
def MustRegister (r : Registry) (i : InstrumentSpec) : Option Registry :=
  if i.name ∈ r.map InstrumentSpec.name then none else some (r ++ [i])

/-- The registration part of `init()`: the five `MustRegister` calls in
source order, each aborting the whole initialization on failure, so a
failure yields no partial registry. -/
def initRegister (r : Registry) : Option Registry :=
  Option.bind (MustRegister r requestLatency) (fun r1 =>
  Option.bind (MustRegister r1 deprecatedRequestLatency) (fun r2 =>
  Option.bind (MustRegister r2 requestResult) (fun r3 =>
  Option.bind (MustRegister r3 execPluginCertTTL) (fun r4 =>
  MustRegister r4 execPluginCertRotation))))

/-- The registry contents produced by a successful first `init()`. -/
def initRegistry : Registry :=
  [requestLatency, deprecatedRequestLatency, requestResult,
   execPluginCertTTL, execPluginCertRotation]

/-- C1: for every verb, URL and duration d >= 0, `latencyAdapter.Observe`
records d.Seconds() into both the primary and the deprecated histogram at
label tuple (verb, u.String()), raising each series's observation count by
exactly one, and has no other effect: every other label tuple and every
other instrument is unchanged. -/
theorem latencyAdapter_Observe_records (verb : String) (u : URL) (d : Duration)
    (s : MetricsState) (l : String × String)
    (hd : 0 ≤ d) (hl : l ≠ (verb, URL.string u)) :
    (latencyAdapter.Observe verb u d s).requestLatency (verb, URL.string u)
      = Duration.seconds d :: s.requestLatency (verb, URL.string u)
    ∧ (latencyAdapter.Observe verb u d s).deprecatedRequestLatency (verb, URL.string u)
      = Duration.seconds d :: s.deprecatedRequestLatency (verb, URL.string u)
    ∧ ((latencyAdapter.Observe verb u d s).requestLatency (verb, URL.string u)).length
      = (s.requestLatency (verb, URL.string u)).length + 1
    ∧ ((latencyAdapter.Observe verb u d s).deprecatedRequestLatency (verb, URL.string u)).length
      = (s.deprecatedRequestLatency (verb, URL.string u)).length + 1
    ∧ (latencyAdapter.Observe verb u d s).requestLatency l = s.requestLatency l
    ∧ (latencyAdapter.Observe verb u d s).deprecatedRequestLatency l
      = s.deprecatedRequestLatency l
    ∧ (latencyAdapter.Observe verb u d s).requestResult = s.requestResult
    ∧ (latencyAdapter.Observe verb u d s).execPluginCertTTL = s.execPluginCertTTL
    ∧ (latencyAdapter.Observe verb u d s).execPluginCertRotation
      = s.execPluginCertRotation := by
  refine ⟨?_, ?_, ?_, ?_, ?_, ?_, rfl, rfl, rfl⟩ <;>
    simp [latencyAdapter.Observe, HistogramVec.observe, hl]

/-- Witness for C1: verb GET, url string e, d = 1.5s (1500000000 ns), fresh
state, with (PUT, x) as the untouched other label tuple. -/
theorem latencyAdapter_Observe_records_witness :
    (0 : Duration) ≤ 1500000000
    ∧ (("PUT", "x") : String × String) ≠ ("GET", URL.string (URL.mk "e"))
    ∧ (latencyAdapter.Observe "GET" (URL.mk "e") 1500000000 freshState).requestLatency
        ("GET", URL.string (URL.mk "e"))
      = Duration.seconds 1500000000
        :: freshState.requestLatency ("GET", URL.string (URL.mk "e")) :=
  ⟨by decide, by decide,
    (latencyAdapter_Observe_records "GET" (URL.mk "e") 1500000000 freshState
      ("PUT", "x") (by decide) (by decide)).1⟩

/-- C10: a negative duration d < 0 is neither rejected, clamped nor skipped:
`latencyAdapter.Observe` records the negative value d.Seconds() into both
latency histograms at (verb, u.String()) exactly as for non-negative ones. -/
theorem latencyAdapter_Observe_negative (verb : String) (u : URL) (d : Duration)
    (s : MetricsState) (hd : d < 0) :
    (latencyAdapter.Observe verb u d s).requestLatency (verb, URL.string u)
      = Duration.seconds d :: s.requestLatency (verb, URL.string u)
    ∧ (latencyAdapter.Observe verb u d s).deprecatedRequestLatency (verb, URL.string u)
      = Duration.seconds d :: s.deprecatedRequestLatency (verb, URL.string u)
    ∧ Duration.seconds d < 0 := by
  refine ⟨?_, ?_, ?_⟩
  · simp [latencyAdapter.Observe, HistogramVec.observe]
  · simp [latencyAdapter.Observe, HistogramVec.observe]
  · have h9 : (0 : ℚ) < 1000000000 := by norm_num
    have hd9 : (d : ℚ) < 0 := by exact_mod_cast hd
    exact div_neg_of_neg_of_pos hd9 h9

/-- Witness for C10: d = -2s on the fresh state. -/
theorem latencyAdapter_Observe_negative_witness :
    (-2000000000 : Duration) < 0
    ∧ (latencyAdapter.Observe "GET" (URL.mk "e") (-2000000000) freshState).requestLatency
        ("GET", URL.string (URL.mk "e"))
      = Duration.seconds (-2000000000)
        :: freshState.requestLatency ("GET", URL.string (URL.mk "e")) :=
  ⟨by decide,
    (latencyAdapter_Observe_negative "GET" (URL.mk "e") (-2000000000) freshState
      (by decide)).1⟩

/-- C2: `ttlAdapter.Set` with a nil pointer sets the TTL gauge to +Inf
whatever its prior value, with no error and no other effect. -/
theorem ttlAdapter_Set_nil (s : MetricsState) :
    (ttlAdapter.Set none s).execPluginCertTTL = GaugeValue.posInf
    ∧ (ttlAdapter.Set none s).requestLatency = s.requestLatency
    ∧ (ttlAdapter.Set none s).deprecatedRequestLatency = s.deprecatedRequestLatency
    ∧ (ttlAdapter.Set none s).requestResult = s.requestResult
    ∧ (ttlAdapter.Set none s).execPluginCertRotation = s.execPluginCertRotation := by
  exact ⟨rfl, rfl, rfl, rfl, rfl⟩

/-- C3: `ttlAdapter.Set` with a non-nil pointer to d overwrites the TTL gauge
with exactly d.Seconds(), for every d including negative ones (no clamping),
regardless of the prior gauge value, with no other effect. -/
theorem ttlAdapter_Set_some (d : Duration) (s : MetricsState) :
    (ttlAdapter.Set (some d) s).execPluginCertTTL
      = GaugeValue.val (Duration.seconds d)
    ∧ (ttlAdapter.Set (some d) s).requestLatency = s.requestLatency
    ∧ (ttlAdapter.Set (some d) s).deprecatedRequestLatency = s.deprecatedRequestLatency
    ∧ (ttlAdapter.Set (some d) s).requestResult = s.requestResult
    ∧ (ttlAdapter.Set (some d) s).execPluginCertRotation = s.execPluginCertRotation := by
  exact ⟨rfl, rfl, rfl, rfl, rfl⟩

/-- C4: after module initialization and before any Set call, the TTL gauge
holds +Inf — it is neither unset nor zero. -/
theorem execPluginCertTTL_after_init :
    initState.execPluginCertTTL = GaugeValue.posInf
    ∧ initState.execPluginCertTTL ≠ GaugeValue.val 0 := by
  exact ⟨rfl, by decide⟩

/-- C5: one `resultAdapter.Increment(code, method, host)` call raises the
counter series of exactly that label tuple by one, leaves every other label
tuple's counter unchanged, and touches no other instrument. -/
theorem resultAdapter_Increment_inc (code method host : String)
    (s : MetricsState) (l : String × String × String)
    (hl : l ≠ (code, method, host)) :
    (resultAdapter.Increment code method host s).requestResult (code, method, host)
      = s.requestResult (code, method, host) + 1
    ∧ (resultAdapter.Increment code method host s).requestResult l
      = s.requestResult l
    ∧ (resultAdapter.Increment code method host s).requestLatency = s.requestLatency
    ∧ (resultAdapter.Increment code method host s).deprecatedRequestLatency
      = s.deprecatedRequestLatency
    ∧ (resultAdapter.Increment code method host s).execPluginCertTTL
      = s.execPluginCertTTL
    ∧ (resultAdapter.Increment code method host s).execPluginCertRotation
      = s.execPluginCertRotation := by
  refine ⟨?_, ?_, rfl, rfl, rfl, rfl⟩ <;>
    simp [resultAdapter.Increment, CounterVec.inc, hl]

/-- Witness for C5: (200, GET, api.example.com) on the fresh state, with
(404, GET, api.example.com) as the untouched other label tuple. -/
theorem resultAdapter_Increment_inc_witness :
    (("404", "GET", "api.example.com") : String × String × String)
      ≠ ("200", "GET", "api.example.com")
    ∧ (resultAdapter.Increment "200" "GET" "api.example.com" freshState).requestResult
        ("200", "GET", "api.example.com")
      = freshState.requestResult ("200", "GET", "api.example.com") + 1 :=
  ⟨by decide,
    (resultAdapter_Increment_inc "200" "GET" "api.example.com" freshState
      ("404", "GET", "api.example.com") (by decide)).1⟩

/-- C6: `rotationAdapter.Observe(d)` raises the rotation histogram's sample
count by exactly one and its sample sum by exactly d.Seconds(), and touches
no other instrument. -/
theorem rotationAdapter_Observe_records (d : Duration) (s : MetricsState) :
    Histogram.count ((rotationAdapter.Observe d s).execPluginCertRotation)
      = Histogram.count s.execPluginCertRotation + 1
    ∧ Histogram.sampleSum ((rotationAdapter.Observe d s).execPluginCertRotation)
      = Histogram.sampleSum s.execPluginCertRotation + Duration.seconds d
    ∧ (rotationAdapter.Observe d s).requestLatency = s.requestLatency
    ∧ (rotationAdapter.Observe d s).deprecatedRequestLatency
      = s.deprecatedRequestLatency
    ∧ (rotationAdapter.Observe d s).requestResult = s.requestResult
    ∧ (rotationAdapter.Observe d s).execPluginCertTTL = s.execPluginCertTTL := by
  refine ⟨?_, ?_, rfl, rfl, rfl, rfl⟩
  · simp [rotationAdapter.Observe, Histogram.observe, Histogram.count]
  · simp [rotationAdapter.Observe, Histogram.observe, Histogram.sampleSum,
      add_comm]

/-- C7: a successful initialization registers exactly five instruments, in
source order, and their exported names, label sets and kinds are exactly as
stated: the two verb/url latency histograms, the code/method/host request
counter, the unlabelled TTL gauge and the unlabelled rotation histogram. -/
theorem five_instruments_names_labels :
    initRegister [] = some initRegistry
    ∧ initRegistry.length = 5
    ∧ requestLatency.name = "rest_client_request_duration_seconds"
    ∧ requestLatency.labelNames = ["verb", "url"]
    ∧ requestLatency.kind = MetricType.histogram
    ∧ deprecatedRequestLatency.name = "rest_client_request_latency_seconds"
    ∧ deprecatedRequestLatency.labelNames = ["verb", "url"]
    ∧ deprecatedRequestLatency.kind = MetricType.histogram
    ∧ deprecatedRequestLatency.deprecatedVersion = some "1.14.0"
    ∧ requestResult.name = "rest_client_requests_total"
    ∧ requestResult.labelNames = ["code", "method", "host"]
    ∧ requestResult.kind = MetricType.counter
    ∧ execPluginCertTTL.name = "rest_client_exec_plugin_ttl_seconds"
    ∧ execPluginCertTTL.labelNames = []
    ∧ execPluginCertTTL.kind = MetricType.gauge
    ∧ execPluginCertRotation.name
      = "rest_client_exec_plugin_certificate_rotation_age"
    ∧ execPluginCertRotation.labelNames = []
    ∧ execPluginCertRotation.kind = MetricType.histogram := by
  exact ⟨rfl, rfl, rfl, rfl, rfl, rfl, rfl, rfl, rfl, rfl, rfl, rfl, rfl, rfl,
    rfl, rfl, rfl, rfl⟩

/-- C8: bucket boundaries are fixed at construction — both latency
histograms carry the exponential sequence 0.001 * 2 ^ i for i = 0..9, i.e.
0.001 through 0.512 seconds, and the rotation histogram carries the stated
explicit boundaries from 600 s (10 minutes) to 124416000 s (4 years). -/
theorem histogram_bucket_boundaries :
    requestLatency.buckets
      = [0.001, 0.002, 0.004, 0.008, 0.016, 0.032, 0.064, 0.128, 0.256, 0.512]
    ∧ deprecatedRequestLatency.buckets = requestLatency.buckets
    ∧ requestLatency.buckets
      = (List.range 10).map (fun i => (0.001 : ℚ) * 2 ^ i)
    ∧ execPluginCertRotation.buckets
      = [600, 1800, 3600, 14400, 86400, 604800, 2592000, 7776000, 15552000,
         31104000, 124416000]
    ∧ execPluginCertRotation.buckets.head? = some 600
    ∧ execPluginCertRotation.buckets.getLast? = some 124416000 := by
  have hr : List.range 10 = [0, 1, 2, 3, 4, 5, 6, 7, 8, 9] := rfl
  refine ⟨?_, rfl, ?_, rfl, rfl, rfl⟩
  · simp only [requestLatency, ExponentialBuckets, hr, List.map_cons,
      List.map_nil]
    norm_num
  · simp only [requestLatency, ExponentialBuckets]

/-- C9: registering an instrument whose name is already in the registry is
fatal (no partial state results), and in particular running the init
registration a second time, on the registry the first run produced, fails
fast with no registry produced at all. -/
theorem duplicate_registration_fatal (r : Registry) (i : InstrumentSpec)
    (h : i.name ∈ r.map InstrumentSpec.name) :
    MustRegister r i = none
    ∧ initRegister [] = some initRegistry
    ∧ initRegister initRegistry = none := by
  refine ⟨?_, rfl, rfl⟩
  simp [MustRegister, h]

/-- Witness for C9: requestLatency's name is already in the registry left by
the first initialization. -/
theorem duplicate_registration_fatal_witness :
    requestLatency.name ∈ initRegistry.map InstrumentSpec.name
    ∧ MustRegister initRegistry requestLatency = none :=
  ⟨by decide,
    (duplicate_registration_fatal initRegistry requestLatency (by decide)).1⟩
